import Mathlib

/-!
Verification development for the ducktape node-management and
test-parametrization core (`ducktape/mark/_mark.py`,
`ducktape/cluster/json.py`, `ducktape/cluster/remoteaccount.py`).

The Python code is shallowly embedded: Python dictionaries created from
keyword arguments are modelled as association lists in the dictionary's
iteration order (`for k in d` / `d.keys()`) — under CPython 2.7, the only
interpreter this Python 2 source runs on, that order is hash-determined
rather than the declaration order, so wherever key order is observable the
iteration order is supplied explicitly — Python exceptions as an explicit
`PyError` sum carried in `Except`, the
`set` of in-use nodes as a duplicate-free list driven by an explicit
equality predicate (mirroring dispatch through `__eq__`), and Python
strings as `String` / `List Char` with the string operations re-implemented
so that they compute in the kernel.
-/

namespace Ducktape

/-- Python exception values raised by the embedded code.  `valueErrorWrapping`
is the two-argument form `ValueError(msg, cause)` used by
`JsonCluster.__init__`; `ducktapeError` is the domain error type
`DucktapeError` from `ducktape.errors` raised by the `Matrix` constructor. -/
inductive PyError where
  | keyError (key : String)
  | typeError (msg : String)
  | attributeError (msg : String)
  | indexError (msg : String)
  | assertionError (msg : String)
  | runtimeError (msg : String)
  | valueError (msg : String)
  | valueErrorWrapping (msg : String) (cause : PyError)
  | ducktapeError (msg : String)
deriving DecidableEq

/-- Does an exception belong to the distinguished domain error kind
(`DucktapeError`)? -/
def PyError.isDucktapeError : PyError → Bool
  | .ducktapeError _ => true
  | _ => false

/-- Lookup in a Python dictionary modelled as an association list
(keyword-argument dictionaries never contain duplicate keys). -/
def dictLookup {α : Type} (d : List (String × α)) (k : String) : Option α :=
  (d.find? (fun p => p.1 == k)).map (·.2)

/-- Python `==` on two keyword-argument dictionaries: same keys, and equal
values key by key (insertion order is irrelevant). -/
def pyDictEq {α : Type} [DecidableEq α] (d1 d2 : List (String × α)) : Bool :=
  d1.all (fun p => decide (dictLookup d2 p.1 = some p.2))
    && d2.all (fun p => decide (dictLookup d1 p.1 = some p.2))

/-- A Python function object as handled by `_mark.py`: either an original
test function, or the wrapper produced by `_inject(**kwargs)` which records
the injected keyword arguments and the wrapped function. -/
inductive PyFunc (α : Type) where
  | base (name : String)
  | injected (kwargs : List (String × α)) (f : PyFunc α)
deriving DecidableEq

/-- Modelled from the spec: the test invocation descriptor (`TestContext`,
referenced by `_mark.py` but not part of the sources) carries the function,
the injected-argument mapping (`None` on the undecorated seed) and a
mutable ignore flag (§3, §4.7 of the spec). -/
structure TestContext (α : Type) where
  function : PyFunc α
  injected_args : Option (List (String × α))
  ignore : Bool
deriving DecidableEq

/-- Modelled from the spec: the descriptor's copy-with-overrides operation,
as used by `Matrix.apply`/`Parametrize.apply` with a new function and new
injected arguments (a fresh descriptor starts with its ignore flag unset). -/
def TestContext.copyWith {α : Type} (_ctx : TestContext α) (f : PyFunc α)
    (ia : List (String × α)) : TestContext α :=
  { function := f, injected_args := some ia, ignore := false }

/-- Modelled from the spec: the seed invocation descriptor built by
`MarkedFunctionExpander.__init__` for the undecorated function. -/
def seed_context {α : Type} (f : PyFunc α) : TestContext α :=
  { function := f, injected_args := none, ignore := false }

/-- The marks of `_mark.py` as a sum: `Ignore` (with `IgnoreAll` as the
`none` configuration), `Matrix` and `Parametrize`. -/
inductive Mark (α : Type) where
  | ignoreMark (injected_args : Option (List (String × α)))
  | matrixMark (injected_args : List (String × List α))
  | parametrizeMark (injected_args : List (String × α))
deriving DecidableEq

/-- `Mark.name` of each concrete mark class. -/
def Mark.name {α : Type} : Mark α → String
  | .ignoreMark _ => "IGNORE"
  | .matrixMark _ => "MATRIX"
  | .parametrizeMark _ => "PARAMETRIZE"

/-- The condition assigned to `ctx.ignore` by `Ignore.apply`:
`ctx.ignore or self.injected_args is None or self.injected_args == ctx.injected_args`
(a dictionary never compares equal to Python `None`). -/
def ignoreCond {α : Type} [DecidableEq α] (args : Option (List (String × α)))
    (ctx : TestContext α) : Bool :=
  ctx.ignore || args.isNone ||
    (match args, ctx.injected_args with
     | some a, some d => pyDictEq a d
     | _, _ => false)

/-- `itertools.product(*values_list)`: tuples in the order where the last
list varies fastest. -/
def pyProduct {α : Type} : List (List α) → List (List α)
  | [] => [[]]
  | vs :: rest => vs.flatMap (fun a => (pyProduct rest).map (a :: ·))

/-- `cartesian_product_dict` from `_mark.py`: one dictionary per element of
the cartesian product of the value lists.  `key_list = [k for k in d.keys()]`
fixes the dictionary's iteration order, carried here as the association-list
order; for a CPython 2.7 kwargs dictionary that is a hash order, not the
declaration order. -/
def cartesian_product_dict {α : Type} (d : List (String × List α)) :
    List (List (String × α)) :=
  (pyProduct (d.map (·.2))).map (fun v => (d.map (·.1)).zip v)

/-- The loop body of `Matrix.apply`: for each combination, in generation
order, insert a descriptor bound via `_inject` at the front of the list. -/
def matrixApplyList {α : Type} (args : List (String × List α))
    (seed : TestContext α) (cs : List (TestContext α)) : List (TestContext α) :=
  (cartesian_product_dict args).foldl
    (fun acc ia => (seed.copyWith (PyFunc.injected ia seed.function) ia) :: acc) cs

/-- The Python value bound to `self.context_list` during `expand`.  Because
`expand` unpacks the list returned by `Mark.apply` into the pair
`(seed_context, context_list)`, the name can end up bound to a single
`TestContext` instead of a list of them. -/
inductive CtxVal (α : Type) where
  | single (c : TestContext α)
  | list (cs : List (TestContext α))
deriving DecidableEq

/-- `Mark.apply` dispatched over the concrete mark classes, acting on the
current value of `context_list`.  Each class returns the context list only.
When `context_list` is a bare `TestContext` (after a corrupting unpack in
`expand`), `len`, `insert` and iteration fail as they do in Python. -/
def Mark.apply {α : Type} [DecidableEq α] :
    Mark α → TestContext α → CtxVal α → Except PyError (CtxVal α)
  | .ignoreMark args, _, .list cs =>
      if cs.length > 0 then
        .ok (.list (cs.map (fun ctx => { ctx with ignore := ignoreCond args ctx })))
      else
        .error (.assertionError "ignore annotation is not being applied to any test cases")
  | .ignoreMark _, _, .single _ =>
      .error (.typeError "object of type 'TestContext' has no len()")
  | .matrixMark args, seed, .list cs => .ok (.list (matrixApplyList args seed cs))
  | .matrixMark _, _, .single _ =>
      .error (.attributeError "'TestContext' object has no attribute 'insert'")
  | .parametrizeMark args, seed, .list cs =>
      .ok (.list ((seed.copyWith (PyFunc.injected args seed.function) args) :: cs))
  | .parametrizeMark _, _, .single _ =>
      .error (.attributeError "'TestContext' object has no attribute 'insert'")

/-- `_is_parametrize_mark` from `_mark.py`. -/
def _is_parametrize_mark {α : Type} (m : Mark α) : Bool :=
  m.name == "PARAMETRIZE" || m.name == "MATRIX"

/-- `parametrized(f)`: the function carries a `PARAMETRIZE` or `MATRIX`
mark (membership in `mark_names`). -/
def parametrized {α : Type} (ms : List (Mark α)) : Bool :=
  ms.any (fun m => m.name == "PARAMETRIZE") || ms.any (fun m => m.name == "MATRIX")

/-- `MarkedFunctionExpander.__init__`: the working list starts empty for a
parametrized function, else holds the seed descriptor. -/
def init_context_list {α : Type} (f : PyFunc α) (ms : List (Mark α)) :
    List (TestContext α) :=
  if parametrized ms then [] else [seed_context f]

/-- The mark surgery at the start of `expand` when `test_parameters` is
given: keep the non-parametrize marks, clear, attach a fresh `Parametrize`
built from `test_parameters`, then re-attach the kept marks. -/
def expand_marks {α : Type} (ms : List (Mark α))
    (tp : Option (List (String × α))) : List (Mark α) :=
  match tp with
  | none => ms
  | some p => Mark.parametrizeMark p :: ms.filter (fun m => !(_is_parametrize_mark m))

/-- The loop `for m in f.marks: self.seed_context, self.context_list = m.apply(...)`
of `expand`.  CPython tuple unpacking of the returned list succeeds only
when it has exactly two elements (then `seed_context` gets element 0 and
`context_list` element 1, a bare `TestContext`); otherwise it raises
`ValueError` with the message CPython 2 uses for each arity. -/
def expand_loop {α : Type} [DecidableEq α] :
    List (Mark α) → TestContext α → CtxVal α → Except PyError (CtxVal α)
  | [], _, cv => .ok cv
  | m :: ms, seed, cv =>
    match m.apply seed cv with
    | .error e => .error e
    | .ok (.list [a, b]) => expand_loop ms a (.single b)
    | .ok (.list [_]) => .error (.valueError "need more than 1 value to unpack")
    | .ok (.list []) => .error (.valueError "need more than 0 values to unpack")
    | .ok (.list _) => .error (.valueError "too many values to unpack")
    | .ok (.single _) => .error (.typeError "'TestContext' object is not iterable")

/-- `MarkedFunctionExpander.expand(test_parameters)` over a function `f`
carrying the attached marks `ms`. -/
def MarkedFunctionExpander.expand {α : Type} [DecidableEq α] (f : PyFunc α)
    (ms : List (Mark α)) (tp : Option (List (String × α))) :
    Except PyError (CtxVal α) :=
  expand_loop (expand_marks ms tp) (seed_context f) (.list (init_context_list f ms))

/-- A `ClusterSlot`: an allocated node paired with the id stamped from the
pool's counter. -/
structure ClusterSlot (α : Type) where
  account : α
  slot_id : Nat
deriving DecidableEq

/-- The mutable state of a `JsonCluster` over node-account values of type
`α`: the deque of available accounts, the set of in-use accounts (kept as a
duplicate-free list; Python sets compare members with `__eq__`, passed in
explicitly as `beq` to the operations below), and the slot-id counter. -/
structure JsonCluster (α : Type) where
  available_nodes : List α
  in_use_nodes : List α
  id_supplier : Nat
deriving DecidableEq

/-- Python `set.add`: a no-op when an equal member is already present. -/
def pySetAdd {α : Type} (beq : α → α → Bool) (s : List α) (a : α) : List α :=
  if s.any (beq a) then s else s ++ [a]

/-- Python `set.remove`: drop the member equal to `a` (callers check
membership first). -/
def pySetRemove {α : Type} (beq : α → α → Bool) (s : List α) (a : α) : List α :=
  s.eraseP (beq a)

/-- `JsonCluster.__len__`: available plus in-use count. -/
def JsonCluster.size {α : Type} (c : JsonCluster α) : Nat :=
  c.available_nodes.length + c.in_use_nodes.length

/-- `JsonCluster.num_available_nodes`. -/
def JsonCluster.num_available_nodes {α : Type} (c : JsonCluster α) : Nat :=
  c.available_nodes.length

/-- The message of the `RuntimeError` raised by `JsonCluster.alloc` when
the request exceeds availability. -/
def alloc_err_msg (total requested allocated available : Nat) : String :=
  "There aren't enough available nodes to satisfy the resource request. " ++
    "Total cluster size: " ++ toString total ++ ", Requested: " ++ toString requested ++
    ", Already allocated: " ++ toString allocated ++ ", Available: " ++
    toString available ++ ". " ++
    "Make sure your cluster has enough nodes to run your test or service(s)."

/-- The allocation loop of `JsonCluster.alloc`: pop from the front of the
available deque, wrap with the next slot id, add the account to the in-use
set.  Popping an empty deque raises, as in Python (unreachable behind the
availability guard). -/
def alloc_go {α : Type} (beq : α → α → Bool) :
    Nat → JsonCluster α → List (ClusterSlot α) →
      Except PyError (List (ClusterSlot α) × JsonCluster α)
  | 0, c, acc => .ok (acc.reverse, c)
  | n + 1, c, acc =>
    match c.available_nodes with
    | [] => .error (.indexError "pop from an empty deque")
    | node :: rest =>
        alloc_go beq n ⟨rest, pySetAdd beq c.in_use_nodes node, c.id_supplier + 1⟩
          ({ account := node, slot_id := c.id_supplier } :: acc)

/-- `JsonCluster.alloc(num_nodes)`. -/
def JsonCluster.alloc {α : Type} (beq : α → α → Bool) (c : JsonCluster α)
    (num_nodes : Nat) : Except PyError (List (ClusterSlot α) × JsonCluster α) :=
  if num_nodes > c.num_available_nodes then
    .error (.runtimeError
      (alloc_err_msg c.size num_nodes c.in_use_nodes.length c.num_available_nodes))
  else
    alloc_go beq num_nodes c []

/-- `JsonCluster.free_single(slot)`: assert the slot's account is in use,
remove it from the in-use set and append it to the back of the deque. -/
def JsonCluster.free_single {α : Type} (beq : α → α → Bool) (c : JsonCluster α)
    (slot : ClusterSlot α) : Except PyError (JsonCluster α) :=
  if c.in_use_nodes.any (beq slot.account) then
    .ok ⟨c.available_nodes ++ [slot.account],
      pySetRemove beq c.in_use_nodes slot.account, c.id_supplier⟩
  else
    .error (.assertionError "slot.account in self.in_use_nodes")

/-- The state set up at the end of `JsonCluster.__init__` from the
constructed node accounts. -/
def initJsonCluster {α : Type} (accounts : List α) : JsonCluster α :=
  ⟨accounts, [], 0⟩

/-- One caller-visible pool operation. -/
inductive ClusterOp (α : Type) where
  | alloc (num_nodes : Nat)
  | free (slot : ClusterSlot α)

/-- Run one pool operation; a raising call leaves the state unchanged
(both `alloc` and `free_single` raise before mutating). -/
def runOp {α : Type} (beq : α → α → Bool) (c : JsonCluster α) :
    ClusterOp α → JsonCluster α
  | .alloc n =>
      match JsonCluster.alloc beq c n with
      | .ok (_, c') => c'
      | .error _ => c
  | .free slot =>
      match JsonCluster.free_single beq c slot with
      | .ok c' => c'
      | .error _ => c

/-- Run a sequence of pool operations. -/
def runOps {α : Type} (beq : α → α → Bool) (c : JsonCluster α)
    (ops : List (ClusterOp α)) : JsonCluster α :=
  ops.foldl (runOp beq) c

/-- A JSON document value as produced by `json.load` (null does not occur
in the cluster schemas exercised here). -/
inductive JVal where
  | jstr (s : String)
  | jnum (n : Int)
  | jarr (xs : List JVal)
  | jobj (kvs : List (String × JVal))

mutual

/-- Python `==` on JSON values (the basis of `RemoteAccount.__eq__`). -/
def JVal.beq : JVal → JVal → Bool
  | .jstr a, .jstr b => a == b
  | .jnum a, .jnum b => a == b
  | .jarr xs, .jarr ys => JVal.beqList xs ys
  | .jobj xs, .jobj ys => JVal.beqPairs xs ys
  | _, _ => false

/-- Elementwise `JVal.beq` on lists. -/
def JVal.beqList : List JVal → List JVal → Bool
  | [], [] => true
  | x :: xs, y :: ys => JVal.beq x y && JVal.beqList xs ys
  | _, _ => false

/-- Pairwise `JVal.beq` on key/value lists. -/
def JVal.beqPairs : List (String × JVal) → List (String × JVal) → Bool
  | [], [] => true
  | (k1, v1) :: xs, (k2, v2) :: ys => k1 == k2 && JVal.beq v1 v2 && JVal.beqPairs xs ys
  | _, _ => false

end

/-- Python subscript `v[key]` with a string key: `KeyError` on a dict
without the key, `TypeError` on non-dict values. -/
def JVal.subscript : JVal → String → Except PyError JVal
  | .jobj kvs, k =>
      match kvs.find? (fun p => p.1 == k) with
      | some p => .ok p.2
      | none => .error (.keyError k)
  | .jstr _, _ => .error (.typeError "string indices must be integers")
  | .jnum _, _ => .error (.typeError "'int' object has no attribute '__getitem__'")
  | .jarr _, _ => .error (.typeError "list indices must be integers, not str")

/-- Python `dict.get(key)`: `None` when absent; only dicts have `get`
(non-dict receivers are unreachable because the `hostname` subscript is
evaluated first). -/
def JVal.get : JVal → String → Except PyError (Option JVal)
  | .jobj kvs, k => .ok ((kvs.find? (fun p => p.1 == k)).map (·.2))
  | .jstr _, _ => .error (.attributeError "'str' object has no attribute 'get'")
  | .jnum _, _ => .error (.attributeError "'int' object has no attribute 'get'")
  | .jarr _, _ => .error (.attributeError "'list' object has no attribute 'get'")

/-- Python iteration over a JSON value: lists yield elements, strings yield
1-character strings, dicts yield their keys, numbers raise `TypeError`. -/
def JVal.asIterable : JVal → Except PyError (List JVal)
  | .jarr xs => .ok xs
  | .jstr s => .ok (s.data.map (fun ch => .jstr (String.mk [ch])))
  | .jobj kvs => .ok (kvs.map (fun p => .jstr p.1))
  | .jnum _ => .error (.typeError "'int' object is not iterable")

/-- The connection fields of a `RemoteAccount` as constructed by
`JsonCluster.__init__` (`logger` and the lazy `_ssh_config` / `_ssh_client`
/ `_scp_client` caches are all `None` at construction and therefore never
distinguish two freshly built accounts under `__eq__`). -/
structure RemoteAccount where
  hostname : JVal
  user : Option JVal
  ssh_args : Option JVal
  ssh_hostname : Option JVal
  externally_routable_ip : Option JVal

/-- `JVal.beq` lifted to optional values (absent compares equal only to
absent, mirroring Python `None`). -/
def optJValBeq : Option JVal → Option JVal → Bool
  | none, none => true
  | some a, some b => JVal.beq a b
  | _, _ => false

/-- `RemoteAccount.__eq__` / `__hash__`: full field-set comparison. -/
def RemoteAccount.beq (a b : RemoteAccount) : Bool :=
  JVal.beq a.hostname b.hostname && optJValBeq a.user b.user
    && optJValBeq a.ssh_args b.ssh_args && optJValBeq a.ssh_hostname b.ssh_hostname
    && optJValBeq a.externally_routable_ip b.externally_routable_ip

/-- Build one `RemoteAccount` from a node descriptor
(`RemoteAccount(ninfo["hostname"], ninfo.get("user"), ninfo.get("ssh_args"),
ssh_hostname=..., externally_routable_ip=...)`, arguments evaluated left to
right). -/
def parse_node (ninfo : JVal) : Except PyError RemoteAccount := do
  let h ← ninfo.subscript "hostname"
  let u ← ninfo.get "user"
  let sa ← ninfo.get "ssh_args"
  let sh ← ninfo.get "ssh_hostname"
  let ip ← ninfo.get "externally_routable_ip"
  pure ⟨h, u, sa, sh, ip⟩

/-- The default `_externally_routable_ip` hook returns `None`, so the
resolution loop in `JsonCluster.__init__` leaves every account unchanged. -/
def resolve_routable_ip (a : RemoteAccount) : RemoteAccount :=
  if a.externally_routable_ip.isNone then { a with externally_routable_ip := none } else a

/-- The body of the `try` block of `JsonCluster.__init__`: build one
account per entry of `cluster_json["nodes"]`, then run the
externally-routable-ip resolution loop. -/
def json_cluster_nodes (cluster_json : JVal) : Except PyError (List RemoteAccount) := do
  let nodes ← cluster_json.subscript "nodes"
  let nodesList ← nodes.asIterable
  let accounts ← nodesList.mapM parse_node
  pure (accounts.map resolve_routable_ip)

/-- `JsonCluster.__init__` over an in-memory document: any exception from
the node-construction block is wrapped in
`ValueError("JSON cluster definition invalid", e)`. -/
def JsonCluster.build (cluster_json : JVal) : Except PyError (JsonCluster RemoteAccount) :=
  match json_cluster_nodes cluster_json with
  | .ok accounts => .ok (initJsonCluster accounts)
  | .error e => .error (.valueErrorWrapping "JSON cluster definition invalid" e)

/-- Is a JSON value iterable (the check `iter(...)` performed by the
`Matrix` constructor)? -/
def jvalIterable : JVal → Bool
  | .jnum _ => false
  | _ => true

/-- The `Matrix.__init__` iterability check: the first non-iterable value
raises the domain error `DucktapeError` with the `TypeError` text appended. -/
def Matrix_init_check (kwargs : List (String × JVal)) : Except PyError (List (String × JVal)) :=
  match kwargs.find? (fun p => !jvalIterable p.2) with
  | some _ => .error (.ducktapeError
      "Expected all values in @matrix decorator to be iterable: 'int' object is not iterable")
  | none => .ok kwargs

/-- Python `str.isspace` characters relevant to `str.strip()`. -/
def pyIsSpace (c : Char) : Bool :=
  c = ' ' || c = '\t' || c = '\n' || c = '\x0b' || c = '\x0c' || c = '\r'

/-- Python `str.strip()`: drop whitespace from both ends. -/
def pyStrip (s : List Char) : List Char :=
  ((s.dropWhile pyIsSpace).reverse.dropWhile pyIsSpace).reverse

/-- Worker for splitting on the literal separator `"-o"`, the marker used
by `RemoteAccount._parse_ssh_opts`: returns the segment up to the first
separator occurrence and the later segments (greedy, left to right,
non-overlapping, exactly as Python `str.split("-o")`). -/
def splitDashOAux : List Char → List Char × List (List Char)
  | [] => ([], [])
  | '-' :: 'o' :: rest =>
      let (seg, segs) := splitDashOAux rest
      ([], seg :: segs)
  | c :: rest =>
      let (seg, segs) := splitDashOAux rest
      (c :: seg, segs)

/-- Python `ssh_args.split("-o")`. -/
def pySplitDashO (s : List Char) : List (List Char) :=
  let (seg, segs) := splitDashOAux s
  seg :: segs

/-- Worker for Python `a.split(' ')` (single-space separator, empty pieces
kept). -/
def splitSpaceAux : List Char → List Char × List (List Char)
  | [] => ([], [])
  | ' ' :: rest =>
      let (seg, segs) := splitSpaceAux rest
      ([], seg :: segs)
  | c :: rest =>
      let (seg, segs) := splitSpaceAux rest
      (c :: seg, segs)

/-- Python `a.split(' ')`. -/
def pySplitSpace (s : List Char) : List (List Char) :=
  let (seg, segs) := splitSpaceAux s
  seg :: segs

/-- Python `a.replace(str(ch), "")`: remove every occurrence of one
character. -/
def removeChar (ch : Char) (s : List Char) : List Char :=
  s.filter (fun c => c ≠ ch)

/-- The segment pipeline of `_parse_ssh_opts` (lines before the pairing
loop): split the raw option string on `"-o"`, strip whitespace, remove
single-quote, double-quote and backslash characters, drop empty segments. -/
def clean_ssh_segments (ssh_args : String) : List (List Char) :=
  (((pySplitDashO ssh_args.data).map pyStrip).map
      (fun a => removeChar '\\' (removeChar '"' (removeChar '\'' a)))).filter
    (fun a => a.length > 0)

/-- The pairing step of `_parse_ssh_opts`:
`pair = a.split(' '); args_dict[pair[0]] = pair[1]` — the value is
`pair[1]`, the second space-delimited token only; a segment without a
space raises `IndexError`. -/
def segment_pair (a : List Char) : Except PyError (String × String) :=
  match pySplitSpace a with
  | k :: v :: _ => .ok (String.mk k, String.mk v)
  | _ => .error (.indexError "list index out of range")

/-- The key/value pairs `_parse_ssh_opts` inserts into `args_dict` from the
raw `ssh_args` string, in segment order. -/
def parse_ssh_opt_pairs (ssh_args : String) : Except PyError (List (String × String)) :=
  (clean_ssh_segments ssh_args).mapM segment_pair

/-- Join character-list tokens with single spaces (Python
`" ".join(tokens)`). -/
def joinSpace : List (List Char) → List Char
  | [] => []
  | [x] => x
  | x :: xs => x ++ ' ' :: joinSpace xs

/-- The pairing rule in the words of claim C8: the option name is the
segment's first space-delimited token and the option value is the entire
remainder of the segment, including any further spaces. -/
def claim_segment_pair (a : List Char) : String × String :=
  match pySplitSpace a with
  | k :: rest => (String.mk k, String.mk (joinSpace rest))
  | [] => ("", "")

/-- The whole parse as claim C8 describes it, for comparison with
`parse_ssh_opt_pairs`. -/
def spec_claimed_ssh_pairs (ssh_args : String) : List (String × String) :=
  (clean_ssh_segments ssh_args).map claim_segment_pair

/-- The kwargs dictionary built by `matrix(x=[1, 2], y=[-1, -2])` in the
order CPython 2.7 actually iterates it: the interpreter's string-hash
table places `"y"` in a lower slot than `"x"`, so `d.keys()` at
`_mark.py:217` yields `["y", "x"]`, not the declaration order. -/
def matrix_xy_kwargs_cpython27 : List (String × List Int) :=
  [("y", [-1, -2]), ("x", [1, 2])]

/-- The same kwargs dictionary read in declaration order, as claim C3
assumes the program iterates it. -/
def matrix_xy_kwargs_declared : List (String × List Int) :=
  [("x", [1, 2]), ("y", [-1, -2])]

/-- A cluster document whose two node descriptors are identical. -/
def dup_node_doc : JVal :=
  .jobj [("nodes", .jarr [.jobj [("hostname", .jstr "worker1")],
    .jobj [("hostname", .jstr "worker1")]])]

/-- A malformed cluster document: the required `"nodes"` key is absent. -/
def malformed_cluster_doc : JVal :=
  .jobj [("machines", .jarr [])]

end Ducktape

namespace Ducktape

/-- Claim C1: `matrix(x=[1,2], y=[-1,-2])` on an otherwise unmarked function
should make `expand()` (without `test_parameters`) return a list of exactly
4 invocation descriptors.  The code instead crashes: `Matrix.apply` returns
the flat 4-element context list, and the loop in `expand` unpacks that
return value into the pair `(self.seed_context, self.context_list)`, raising
`ValueError: too many values to unpack`.  The second conjunct shows the
mark itself does build 4 descriptors, matching the documented intent. -/
theorem c1_matrix_expand_crash :
    MarkedFunctionExpander.expand (PyFunc.base "g")
        [Mark.matrixMark [("x", [(1 : Int), 2]), ("y", [-1, -2])]] none
      = .error (.valueError "too many values to unpack")
    ∧ (matrixApplyList [("x", [(1 : Int), 2]), ("y", [-1, -2])]
        (seed_context (PyFunc.base "g")) []).length = 4 :=
  ⟨rfl, rfl⟩

/-- Claim C2: `expand(test_parameters={"x": 9})` on a matrix-decorated
function with a co-attached ignore mark does strip the matrix mark and keep
the ignore mark (first conjunct), but it cannot yield the single descriptor
the claim promises: applying the fresh `Parametrize` mark returns a
1-element context list, whose unpacking into `(seed_context, context_list)`
raises `ValueError: need more than 1 value to unpack` (second conjunct). -/
theorem c2_override_expand_crash :
    expand_marks [Mark.matrixMark [("x", [(1 : Int), 2])],
        Mark.ignoreMark (some [("x", 9)])] (some [("x", 9)])
      = [Mark.parametrizeMark [("x", 9)], Mark.ignoreMark (some [("x", 9)])]
    ∧ MarkedFunctionExpander.expand (PyFunc.base "f")
        [Mark.matrixMark [("x", [(1 : Int), 2])], Mark.ignoreMark (some [("x", 9)])]
        (some [("x", 9)])
      = .error (.valueError "need more than 1 value to unpack") :=
  ⟨rfl, rfl⟩

/-- Appending one more value list to `itertools.product` makes it the
innermost, fastest-varying coordinate. -/
theorem pyProduct_append_singleton {α : Type} (ls : List (List α)) (vs : List α) :
    pyProduct (ls ++ [vs]) = (pyProduct ls).flatMap (fun c => vs.map (fun v => c ++ [v])) := by
  induction ls with
  | nil =>
      simp [pyProduct]
      exact (List.map_eq_flatMap (fun v => [v]) vs).symm
  | cons l ls ih =>
      simp [pyProduct, ih, List.map_flatMap, List.flatMap_assoc, List.flatMap_map,
        List.map_map, Function.comp_def]

/-- Every tuple produced by `itertools.product` has one coordinate per
input list. -/
theorem length_of_mem_pyProduct {α : Type} : ∀ (ls : List (List α)) (c : List α),
    c ∈ pyProduct ls → c.length = ls.length := by
  intro ls
  induction ls with
  | nil =>
      intro c hc
      simp only [pyProduct, List.mem_singleton] at hc
      simp [hc]
  | cons l ls ih =>
      intro c hc
      simp only [pyProduct, List.mem_flatMap, List.mem_map] at hc
      obtain ⟨a, _, d, hd, rfl⟩ := hc
      simp [ih d hd]

/-- `cartesian_product_dict` enumerates the last-declared parameter
fastest: appending a parameter `(k, vs)` refines each previous combination
by cycling through `vs` innermost. -/
theorem cartesian_product_dict_append {α : Type} (d : List (String × List α))
    (k : String) (vs : List α) :
    cartesian_product_dict (d ++ [(k, vs)])
      = (cartesian_product_dict d).flatMap (fun c => vs.map (fun v => c ++ [(k, v)])) := by
  unfold cartesian_product_dict
  rw [List.map_append, List.map_append]
  simp only [List.map_cons, List.map_nil]
  rw [pyProduct_append_singleton, List.map_flatMap, List.flatMap_map]
  apply List.flatMap_congr
  intro c hc
  rw [List.map_map]
  apply List.map_congr_left
  intro v _
  have hlen : (List.map (fun p => p.1) d).length = c.length := by
    rw [List.length_map, length_of_mem_pyProduct (d.map (·.2)) c hc, List.length_map]
  simp [Function.comp_def, List.zip_append hlen]

/-- Folding cons-at-the-front over a list lands the elements in reverse
traversal order in front of the initial accumulator. -/
theorem foldl_cons_front {α β : Type} (xs : List α) (f : α → β) :
    ∀ (l : List β), xs.foldl (fun acc x => f x :: acc) l = (xs.map f).reverse ++ l := by
  induction xs with
  | nil => intro l; rfl
  | cons x xs ih => intro l; simp [ih, List.append_assoc]

/-- Counterexample to C3 as stated: on `matrix(x=[1, 2], y=[-1, -2])` the
program's kwargs dictionary iterates `"y"` before `"x"` under CPython 2.7,
so the second combination the program generates is `{y: -1, x: 2}` (first
conjunct), whereas generating with the *last-declared* parameter varying
fastest would make it `{x: 1, y: -2}` (second conjunct) — and these two are
not equal as Python dictionaries (third conjunct): the last-declared
parameter `y` in fact varies slowest here. -/
theorem c3_generation_order_counterexample :
    cartesian_product_dict matrix_xy_kwargs_cpython27
      = [[("y", (-1 : Int)), ("x", 1)], [("y", -1), ("x", 2)],
         [("y", -2), ("x", 1)], [("y", -2), ("x", 2)]]
    ∧ cartesian_product_dict matrix_xy_kwargs_declared
      = [[("x", (1 : Int)), ("y", -1)], [("x", 1), ("y", -2)],
         [("x", 2), ("y", -1)], [("x", 2), ("y", -2)]]
    ∧ pyDictEq [("y", (-1 : Int)), ("x", 2)] [("x", 1), ("y", -2)] = false :=
  ⟨rfl, rfl, rfl⟩

/-- Claim C3 (amended): a single `Matrix.apply` call generates argument
combinations in cartesian-product order with the parameter that comes
*last in the kwargs dictionary's iteration order* varying fastest (first
conjunct; under CPython 2.7 that iteration order is hash-determined, not
the declaration order — see the counterexample), inserts each combination
at the front of the descriptor list in generation order, and therefore its
contributed descriptors appear in the returned list in the reverse of
generation order, ahead of the pre-existing descriptors (second
conjunct). -/
theorem c3_matrix_apply_order {α : Type} [DecidableEq α] (d : List (String × List α))
    (k : String) (vs : List α) (seed : TestContext α) (cs : List (TestContext α)) :
    cartesian_product_dict (d ++ [(k, vs)])
      = (cartesian_product_dict d).flatMap (fun c => vs.map (fun v => c ++ [(k, v)]))
    ∧ Mark.apply (Mark.matrixMark d) seed (.list cs)
      = .ok (.list (((cartesian_product_dict d).map
          (fun ia => seed.copyWith (PyFunc.injected ia seed.function) ia)).reverse ++ cs)) := by
  refine ⟨cartesian_product_dict_append d k vs, ?_⟩
  have happ : Mark.apply (Mark.matrixMark d) seed (.list cs)
      = .ok (.list (matrixApplyList d seed cs)) := rfl
  rw [happ]
  unfold matrixApplyList
  rw [foldl_cons_front]

/-- `Ignore.apply` on a non-empty descriptor list maps the flag-update rule
over every descriptor. -/
theorem ignore_apply_ok {α : Type} [DecidableEq α] (args : Option (List (String × α)))
    (seed : TestContext α) (cs : List (TestContext α)) (h : cs ≠ []) :
    Mark.apply (Mark.ignoreMark args) seed (.list cs)
      = .ok (.list (cs.map (fun ctx => { ctx with ignore := ignoreCond args ctx }))) := by
  have hlen : cs.length > 0 := List.length_pos.mpr h
  simp [Mark.apply, hlen]

/-- Claim C7: applying an `Ignore`/`IgnoreAll` mark to an empty descriptor
list is an assertion failure (first conjunct); on a non-empty list each
descriptor ends up ignored exactly when it already was, or the mark is the
match-all sentinel (`IgnoreAll`, configuration `none`), or the mark's
configuration dictionary equals the descriptor's injected arguments
(second conjunct). -/
theorem c7_ignore_flag_semantics {α : Type} [DecidableEq α]
    (args : Option (List (String × α))) (seed : TestContext α)
    (cs : List (TestContext α)) (h : cs ≠ []) :
    Mark.apply (Mark.ignoreMark args) seed (.list ([] : List (TestContext α)))
      = .error (.assertionError "ignore annotation is not being applied to any test cases")
    ∧ ∃ cs', Mark.apply (Mark.ignoreMark args) seed (.list cs) = .ok (.list cs')
        ∧ List.Forall₂ (fun c c' : TestContext α =>
            c'.ignore = true ↔ (c.ignore = true ∨ args = none ∨
              ∃ a dd, args = some a ∧ c.injected_args = some dd ∧ pyDictEq a dd = true))
            cs cs' := by
  refine ⟨rfl, cs.map (fun ctx => { ctx with ignore := ignoreCond args ctx }),
    ignore_apply_ok args seed cs h, ?_⟩
  rw [List.forall₂_map_right_iff]
  rw [List.forall₂_same]
  intro c _
  cases args with
  | none => simp [ignoreCond]
  | some a =>
      cases hci : c.injected_args with
      | none => simp [ignoreCond, hci]
      | some dd => simp [ignoreCond, hci]

/-- Witness for C7 at a concrete mark and descriptor list. -/
theorem c7_ignore_flag_semantics_witness :
    Mark.apply (Mark.ignoreMark (some [("x", (2 : Int))]))
        (seed_context (PyFunc.base "t")) (.list ([] : List (TestContext Int)))
      = .error (.assertionError "ignore annotation is not being applied to any test cases")
    ∧ ∃ cs', Mark.apply (Mark.ignoreMark (some [("x", (2 : Int))]))
          (seed_context (PyFunc.base "t"))
          (.list [⟨PyFunc.base "t", some [("x", 2)], false⟩]) = .ok (.list cs')
        ∧ List.Forall₂ (fun c c' : TestContext Int =>
            c'.ignore = true ↔ (c.ignore = true ∨ some [("x", (2 : Int))] = none ∨
              ∃ a dd, some [("x", (2 : Int))] = some a ∧ c.injected_args = some dd
                ∧ pyDictEq a dd = true))
            [⟨PyFunc.base "t", some [("x", 2)], false⟩] cs' :=
  c7_ignore_flag_semantics (some [("x", (2 : Int))]) (seed_context (PyFunc.base "t"))
    [⟨PyFunc.base "t", some [("x", 2)], false⟩] (List.cons_ne_nil _ _)

/-- Claim C10: `Ignore.apply` neither adds, removes nor reorders
descriptors, leaves every descriptor's function and injected arguments
unchanged, and changes the ignore flag only from false to true (an already
ignored descriptor stays ignored). -/
theorem c10_ignore_apply_frame {α : Type} [DecidableEq α]
    (args : Option (List (String × α))) (seed : TestContext α)
    (cs cs' : List (TestContext α))
    (h : Mark.apply (Mark.ignoreMark args) seed (.list cs) = .ok (.list cs')) :
    cs'.length = cs.length
    ∧ List.Forall₂ (fun c c' : TestContext α =>
        c'.function = c.function ∧ c'.injected_args = c.injected_args
          ∧ (c.ignore = true → c'.ignore = true)
          ∧ (c'.ignore = c.ignore ∨ (c.ignore = false ∧ c'.ignore = true))) cs cs' := by
  have hne : cs ≠ [] := by
    intro hcs
    rw [hcs] at h
    simp [Mark.apply] at h
  rw [ignore_apply_ok args seed cs hne] at h
  simp only [Except.ok.injEq, CtxVal.list.injEq] at h
  subst h
  refine ⟨by simp, ?_⟩
  rw [List.forall₂_map_right_iff, List.forall₂_same]
  intro c _
  refine ⟨rfl, rfl, ?_, ?_⟩
  · intro hci
    simp [ignoreCond, hci]
  · have hred : ({ c with ignore := ignoreCond args c } : TestContext α).ignore
        = ignoreCond args c := rfl
    rw [hred]
    cases hci : c.ignore with
    | false =>
        cases hcnd : ignoreCond args c with
        | false => exact Or.inl rfl
        | true => exact Or.inr ⟨rfl, rfl⟩
    | true => exact Or.inl (by simp [ignoreCond, hci])

/-- Membership through a lawful equality predicate. -/
theorem any_beq_iff {α : Type} {beq : α → α → Bool}
    (hbeq : ∀ a b, beq a b = true ↔ a = b) (s : List α) (a : α) :
    s.any (beq a) = true ↔ a ∈ s := by
  rw [List.any_eq_true]
  constructor
  · rintro ⟨x, hx, hb⟩
    exact (hbeq a x).mp hb ▸ hx
  · intro ha
    exact ⟨a, ha, (hbeq a a).mpr rfl⟩

/-- `set.add` of an element not yet present appends it. -/
theorem pySetAdd_of_not_mem {α : Type} {beq : α → α → Bool}
    (hbeq : ∀ a b, beq a b = true ↔ a = b) {s : List α} {a : α} (h : a ∉ s) :
    pySetAdd beq s a = s ++ [a] := by
  unfold pySetAdd
  rw [if_neg]
  intro hany
  exact h ((any_beq_iff hbeq s a).mp hany)

/-- `set.remove` of a present element: putting it back in front restores
the set's members up to permutation. -/
theorem perm_cons_pySetRemove {α : Type} {beq : α → α → Bool}
    (hbeq : ∀ a b, beq a b = true ↔ a = b) :
    ∀ (s : List α) (a : α), a ∈ s → (a :: pySetRemove beq s a).Perm s := by
  intro s
  induction s with
  | nil => intro a ha; cases ha
  | cons b t ih =>
      intro a ha
      unfold pySetRemove
      cases hb : beq a b with
      | true =>
          have hab : a = b := (hbeq a b).mp hb
          subst hab
          rw [List.eraseP_cons_of_pos hb]
      | false =>
          have hne : a ≠ b := fun he => by
            rw [he, (hbeq b b).mpr rfl] at hb
            cases hb
          have ha' : a ∈ t := by
            cases List.mem_cons.mp ha with
            | inl h1 => exact absurd h1 hne
            | inr h2 => exact h2
          rw [List.eraseP_cons_of_neg (by simp [hb])]
          exact (List.Perm.swap b a _).trans ((ih a ha').cons b)

/-- Characterization of the allocation loop: it pops the first `n`
available accounts in order, stamps consecutive slot ids, and adds each
popped account to the in-use set. -/
theorem alloc_go_ok {α : Type} (beq : α → α → Bool) :
    ∀ (n : Nat) (av iu : List α) (idx : Nat) (acc : List (ClusterSlot α)),
      n ≤ av.length →
      alloc_go beq n ⟨av, iu, idx⟩ acc
        = .ok (acc.reverse ++ ((av.take n).zip (List.range' idx n)).map
              (fun p => ⟨p.1, p.2⟩),
            ⟨av.drop n, (av.take n).foldl (pySetAdd beq) iu, idx + n⟩) := by
  intro n
  induction n with
  | zero =>
      intro av iu idx acc _
      simp [alloc_go]
  | succ n ih =>
      intro av iu idx acc h
      match av with
      | [] => simp at h
      | node :: rest =>
          have h' : n ≤ rest.length := by simpa using h
          have hstep : alloc_go beq (n + 1) ⟨node :: rest, iu, idx⟩ acc
              = alloc_go beq n ⟨rest, pySetAdd beq iu node, idx + 1⟩
                  ({ account := node, slot_id := idx } :: acc) := rfl
          rw [hstep, ih rest (pySetAdd beq iu node) (idx + 1)
            ({ account := node, slot_id := idx } :: acc) h']
          simp only [List.range'_succ, List.take_succ_cons, List.drop_succ_cons,
            List.zip_cons_cons, List.map_cons, List.reverse_cons, List.append_assoc,
            List.cons_append, List.nil_append, List.foldl_cons, Except.ok.injEq,
            Prod.mk.injEq, JsonCluster.mk.injEq]
          exact ⟨trivial, trivial, trivial, by omega⟩

/-- The allocation loop preserves the pool's membership up to
permutation. -/
theorem alloc_go_perm {α : Type} {beq : α → α → Bool}
    (hbeq : ∀ a b, beq a b = true ↔ a = b) {nodes : List α} (hnd : nodes.Nodup) :
    ∀ (n : Nat) (c : JsonCluster α) (acc slots : List (ClusterSlot α))
      (c' : JsonCluster α),
      (c.available_nodes ++ c.in_use_nodes).Perm nodes →
      alloc_go beq n c acc = .ok (slots, c') →
      (c'.available_nodes ++ c'.in_use_nodes).Perm nodes := by
  intro n
  induction n with
  | zero =>
      intro c acc slots c' hperm heq
      simp only [alloc_go, Except.ok.injEq, Prod.mk.injEq] at heq
      exact heq.2 ▸ hperm
  | succ n ih =>
      intro c acc slots c' hperm heq
      obtain ⟨av, iu, idx⟩ := c
      match av with
      | [] => simp [alloc_go] at heq
      | node :: rest =>
          have hstep : alloc_go beq (n + 1) ⟨node :: rest, iu, idx⟩ acc
              = alloc_go beq n ⟨rest, pySetAdd beq iu node, idx + 1⟩
                  ({ account := node, slot_id := idx } :: acc) := rfl
          rw [hstep] at heq
          have hnodup : (node :: (rest ++ iu)).Nodup := hperm.symm.nodup hnd
          have hnm : node ∉ iu := fun hmem =>
            (List.nodup_cons.mp hnodup).1 (List.mem_append_right rest hmem)
          have hperm' : (rest ++ pySetAdd beq iu node).Perm nodes := by
            rw [pySetAdd_of_not_mem hbeq hnm, ← List.append_assoc]
            exact (List.perm_append_singleton node (rest ++ iu)).trans hperm
          exact ih ⟨rest, pySetAdd beq iu node, idx + 1⟩ _ slots c' hperm' heq

/-- Every single `alloc`/`free_single` call (successful or raising)
preserves the pool's membership up to permutation. -/
theorem runOp_perm {α : Type} {beq : α → α → Bool}
    (hbeq : ∀ a b, beq a b = true ↔ a = b) {nodes : List α} (hnd : nodes.Nodup)
    (c : JsonCluster α) (op : ClusterOp α)
    (hperm : (c.available_nodes ++ c.in_use_nodes).Perm nodes) :
    ((runOp beq c op).available_nodes ++ (runOp beq c op).in_use_nodes).Perm nodes := by
  cases op with
  | alloc n =>
      simp only [runOp]
      split
      case _ slots c' heq =>
          unfold JsonCluster.alloc at heq
          by_cases hg : n > c.num_available_nodes
          · rw [if_pos hg] at heq
            cases heq
          · rw [if_neg hg] at heq
            exact alloc_go_perm hbeq hnd n c [] slots c' hperm heq
      case _ => exact hperm
  | free slot =>
      simp only [runOp]
      split
      case _ c' heq =>
          unfold JsonCluster.free_single at heq
          split at heq
          case isTrue hm =>
              cases heq
              have hmem : slot.account ∈ c.in_use_nodes :=
                (any_beq_iff hbeq c.in_use_nodes slot.account).mp hm
              have h1 : (slot.account
                  :: pySetRemove beq c.in_use_nodes slot.account).Perm c.in_use_nodes :=
                perm_cons_pySetRemove hbeq c.in_use_nodes slot.account hmem
              have h2 : ((c.available_nodes ++ [slot.account])
                  ++ pySetRemove beq c.in_use_nodes slot.account).Perm
                    (c.available_nodes ++ c.in_use_nodes) := by
                rw [List.append_assoc]
                exact List.Perm.append_left c.available_nodes h1
              exact h2.trans hperm
          case isFalse hm => cases heq
      case _ => exact hperm

/-- Any sequence of pool operations preserves the pool's membership up to
permutation. -/
theorem runOps_perm {α : Type} {beq : α → α → Bool}
    (hbeq : ∀ a b, beq a b = true ↔ a = b) {nodes : List α} (hnd : nodes.Nodup)
    (ops : List (ClusterOp α)) (c : JsonCluster α)
    (hperm : (c.available_nodes ++ c.in_use_nodes).Perm nodes) :
    ((runOps beq c ops).available_nodes ++ (runOps beq c ops).in_use_nodes).Perm nodes := by
  induction ops generalizing c with
  | nil => exact hperm
  | cons op ops ih =>
      exact ih (runOp beq c op) (runOp_perm hbeq hnd c op hperm)

/-- Claim C4 (amended): for a pool built from pairwise-distinct node
accounts, `size()` stays equal to the node count after any sequence of
`alloc`/`free_single` calls, and equals `num_available_nodes()` plus the
in-use count.  (With duplicate node descriptors the in-use set collapses
equal accounts and `size()` drops below N, see the counterexample.) -/
theorem c4_size_invariant_distinct {α : Type} (beq : α → α → Bool)
    (hbeq : ∀ a b, beq a b = true ↔ a = b)
    (nodes : List α) (hnd : nodes.Nodup) (ops : List (ClusterOp α)) :
    (runOps beq (initJsonCluster nodes) ops).size = nodes.length
    ∧ (runOps beq (initJsonCluster nodes) ops).num_available_nodes
        + (runOps beq (initJsonCluster nodes) ops).in_use_nodes.length
      = nodes.length := by
  have hinit : ((initJsonCluster nodes : JsonCluster α).available_nodes
      ++ (initJsonCluster nodes : JsonCluster α).in_use_nodes).Perm nodes := by
    simp [initJsonCluster]
  have hperm := runOps_perm hbeq hnd ops (initJsonCluster nodes) hinit
  have hlen := hperm.length_eq
  rw [List.length_append] at hlen
  exact ⟨hlen, hlen⟩

/-- Witness for the amended C4 on a concrete three-node pool and a
concrete operation sequence. -/
theorem c4_size_invariant_distinct_witness :
    (runOps (fun a b : String => a == b) (initJsonCluster ["a", "b", "c"])
        [ClusterOp.alloc 2, ClusterOp.free ⟨"a", 0⟩, ClusterOp.alloc 1]).size = 3
    ∧ (runOps (fun a b : String => a == b) (initJsonCluster ["a", "b", "c"])
        [ClusterOp.alloc 2, ClusterOp.free ⟨"a", 0⟩, ClusterOp.alloc 1]).num_available_nodes
        + (runOps (fun a b : String => a == b) (initJsonCluster ["a", "b", "c"])
            [ClusterOp.alloc 2, ClusterOp.free ⟨"a", 0⟩, ClusterOp.alloc 1]).in_use_nodes.length
      = 3 :=
  c4_size_invariant_distinct (fun a b : String => a == b) (fun a b => beq_iff_eq)
    ["a", "b", "c"] (by decide) [ClusterOp.alloc 2, ClusterOp.free ⟨"a", 0⟩, ClusterOp.alloc 1]

/-- Counterexample to C4 as stated: a `JsonCluster` built from two
identical node descriptors has `size() = 2` at construction, but after
`alloc(2)` the two equal accounts collapse in the in-use set and `size()`
becomes 1, not 2. -/
theorem c4_duplicate_descriptor_counterexample :
    (JsonCluster.build dup_node_doc).map (fun c0 => c0.size) = .ok 2
    ∧ (JsonCluster.build dup_node_doc).map
        (fun c0 => (runOps RemoteAccount.beq c0 [ClusterOp.alloc 2]).size) = .ok 1
    ∧ ¬((1 : Nat) = 2) :=
  ⟨rfl, rfl, by decide⟩

/-- Claim C5: whenever `alloc(n)` exceeds availability it raises
`RuntimeError` whose message reports total size, requested, allocated and
available counts and advises provisioning more nodes (first conjunct, with
the literal message rendered in the last conjunct); on a fresh 2-node pool
`alloc(3)` fails this way, and `alloc(2)` followed by `alloc(1)` fails with
the same kind of error and message format. -/
theorem c5_alloc_exhaustion {α : Type} (beq : α → α → Bool) (c : JsonCluster α)
    (num_nodes : Nat) (h : num_nodes > c.num_available_nodes) :
    JsonCluster.alloc beq c num_nodes
      = .error (.runtimeError
          (alloc_err_msg c.size num_nodes c.in_use_nodes.length c.num_available_nodes))
    ∧ JsonCluster.alloc (fun a b : String => a == b) (initJsonCluster ["A", "B"]) 3
      = .error (.runtimeError (alloc_err_msg 2 3 0 2))
    ∧ (JsonCluster.alloc (fun a b : String => a == b) (initJsonCluster ["A", "B"]) 2).map
        (fun p => JsonCluster.alloc (fun a b : String => a == b) p.2 1)
      = .ok (.error (.runtimeError (alloc_err_msg 2 1 2 0)))
    ∧ alloc_err_msg 2 3 0 2
      = "There aren't enough available nodes to satisfy the resource request. Total cluster size: 2, Requested: 3, Already allocated: 0, Available: 2. Make sure your cluster has enough nodes to run your test or service(s)." := by
  refine ⟨?_, rfl, rfl, rfl⟩
  unfold JsonCluster.alloc
  rw [if_pos h]

/-- Witness for C5 on a concrete over-subscribed pool. -/
theorem c5_alloc_exhaustion_witness :
    JsonCluster.alloc (fun a b : String => a == b) (initJsonCluster ["A"]) 2
      = .error (.runtimeError
          (alloc_err_msg (initJsonCluster ["A"] : JsonCluster String).size 2
            (initJsonCluster ["A"] : JsonCluster String).in_use_nodes.length
            (initJsonCluster ["A"] : JsonCluster String).num_available_nodes))
    ∧ JsonCluster.alloc (fun a b : String => a == b) (initJsonCluster ["A", "B"]) 3
      = .error (.runtimeError (alloc_err_msg 2 3 0 2))
    ∧ (JsonCluster.alloc (fun a b : String => a == b) (initJsonCluster ["A", "B"]) 2).map
        (fun p => JsonCluster.alloc (fun a b : String => a == b) p.2 1)
      = .ok (.error (.runtimeError (alloc_err_msg 2 1 2 0)))
    ∧ alloc_err_msg 2 3 0 2
      = "There aren't enough available nodes to satisfy the resource request. Total cluster size: 2, Requested: 3, Already allocated: 0, Available: 2. Make sure your cluster has enough nodes to run your test or service(s)." :=
  c5_alloc_exhaustion (fun a b : String => a == b) (initJsonCluster ["A"]) 2 (by decide)

/-- Claim C6: `alloc` pops accounts from the front of the available queue
in order (first conjunct), `free_single` appends the freed account to the
back (second conjunct); hence on a pool `[A, B, C]`, `alloc(1)` returns
`A`, and after freeing `A` the next `alloc(1)` returns `B`, not `A`
(remaining conjuncts). -/
theorem c6_fifo_allocation {α : Type} (beq : α → α → Bool)
    (hbeq : ∀ a b, beq a b = true ↔ a = b)
    (c : JsonCluster α) (n : Nat) (hn : n ≤ c.num_available_nodes)
    (slot : ClusterSlot α) (hs : slot.account ∈ c.in_use_nodes)
    (A B C : α) (hAB : A ≠ B) :
    (∃ slots c', JsonCluster.alloc beq c n = .ok (slots, c')
      ∧ slots.map ClusterSlot.account = c.available_nodes.take n
      ∧ c'.available_nodes = c.available_nodes.drop n)
    ∧ JsonCluster.free_single beq c slot
      = .ok ⟨c.available_nodes ++ [slot.account],
          pySetRemove beq c.in_use_nodes slot.account, c.id_supplier⟩
    ∧ JsonCluster.alloc beq (initJsonCluster [A, B, C]) 1
      = .ok ([⟨A, 0⟩], ⟨[B, C], [A], 1⟩)
    ∧ JsonCluster.free_single beq ⟨[B, C], [A], 1⟩ ⟨A, 0⟩ = .ok ⟨[B, C, A], [], 1⟩
    ∧ JsonCluster.alloc beq ⟨[B, C, A], [], 1⟩ 1 = .ok ([⟨B, 1⟩], ⟨[C, A], [B], 2⟩)
    ∧ B ≠ A := by
  have hAA : beq A A = true := (hbeq A A).mpr rfl
  refine ⟨?_, ?_, rfl, ?_, rfl, Ne.symm hAB⟩
  · obtain ⟨av, iu, idx⟩ := c
    refine ⟨((av.take n).zip (List.range' idx n)).map (fun p => ⟨p.1, p.2⟩),
      ⟨av.drop n, (av.take n).foldl (pySetAdd beq) iu, idx + n⟩, ?_, ?_, rfl⟩
    · unfold JsonCluster.alloc
      rw [if_neg (Nat.not_lt.mpr hn)]
      exact alloc_go_ok beq n av iu idx [] hn
    · rw [List.map_map]
      have : (ClusterSlot.account ∘ fun p : α × Nat => (⟨p.1, p.2⟩ : ClusterSlot α))
          = Prod.fst := rfl
      rw [this]
      apply List.map_fst_zip
      simp [List.length_range', Nat.min_le_left n av.length]
  · unfold JsonCluster.free_single
    rw [if_pos ((any_beq_iff hbeq c.in_use_nodes slot.account).mpr hs)]
  · unfold JsonCluster.free_single
    rw [if_pos (by simp [hAA])]
    simp [pySetRemove, List.eraseP_cons_of_pos hAA]

/-- Witness for C6 on a concrete pool and concrete node names. -/
theorem c6_fifo_allocation_witness :
    (∃ slots c', JsonCluster.alloc (fun a b : String => a == b) ⟨["x"], ["y"], 0⟩ 1
        = .ok (slots, c')
      ∧ slots.map ClusterSlot.account
          = (⟨["x"], ["y"], 0⟩ : JsonCluster String).available_nodes.take 1
      ∧ c'.available_nodes
          = (⟨["x"], ["y"], 0⟩ : JsonCluster String).available_nodes.drop 1)
    ∧ JsonCluster.free_single (fun a b : String => a == b) ⟨["x"], ["y"], 0⟩ ⟨"y", 0⟩
      = .ok ⟨(⟨["x"], ["y"], 0⟩ : JsonCluster String).available_nodes ++ ["y"],
          pySetRemove (fun a b : String => a == b)
            (⟨["x"], ["y"], 0⟩ : JsonCluster String).in_use_nodes "y", 0⟩
    ∧ JsonCluster.alloc (fun a b : String => a == b) (initJsonCluster ["A", "B", "C"]) 1
      = .ok ([⟨"A", 0⟩], ⟨["B", "C"], ["A"], 1⟩)
    ∧ JsonCluster.free_single (fun a b : String => a == b) ⟨["B", "C"], ["A"], 1⟩ ⟨"A", 0⟩
      = .ok ⟨["B", "C", "A"], [], 1⟩
    ∧ JsonCluster.alloc (fun a b : String => a == b) ⟨["B", "C", "A"], [], 1⟩ 1
      = .ok ([⟨"B", 1⟩], ⟨["C", "A"], ["B"], 2⟩)
    ∧ "B" ≠ "A" :=
  c6_fifo_allocation (fun a b : String => a == b) (fun a b => beq_iff_eq)
    ⟨["x"], ["y"], 0⟩ 1 (by decide) ⟨"y", 0⟩ (by decide) "A" "B" "C" (by decide)

/-- Witness for C10 at a concrete `IgnoreAll` application. -/
theorem c10_ignore_apply_frame_witness :
    ([⟨PyFunc.base "t", none, true⟩] : List (TestContext Int)).length
        = ([⟨PyFunc.base "t", none, false⟩] : List (TestContext Int)).length
    ∧ List.Forall₂ (fun c c' : TestContext Int =>
        c'.function = c.function ∧ c'.injected_args = c.injected_args
          ∧ (c.ignore = true → c'.ignore = true)
          ∧ (c'.ignore = c.ignore ∨ (c.ignore = false ∧ c'.ignore = true)))
        [⟨PyFunc.base "t", none, false⟩] [⟨PyFunc.base "t", none, true⟩] :=
  c10_ignore_apply_frame none (seed_context (PyFunc.base "t"))
    [⟨PyFunc.base "t", none, false⟩] [⟨PyFunc.base "t", none, true⟩] rfl

/-- Counterexample to C8 as stated: for a segment whose value contains
spaces, `_parse_ssh_opts` keeps only the second space-delimited token
(`pair = a.split(' '); args_dict[pair[0]] = pair[1]`), not the entire
remainder of the segment the claim describes. -/
theorem c8_value_truncation_counterexample :
    parse_ssh_opt_pairs "-o 'ProxyCommand ssh gateway nc'" = .ok [("ProxyCommand", "ssh")]
    ∧ spec_claimed_ssh_pairs "-o 'ProxyCommand ssh gateway nc'"
      = [("ProxyCommand", "ssh gateway nc")]
    ∧ ¬([("ProxyCommand", "ssh")] = ([("ProxyCommand", "ssh gateway nc")]
          : List (String × String))) :=
  ⟨rfl, rfl, by decide⟩

/-- On segments that split into exactly two space-delimited tokens, the
source pairing agrees with the claim's first-space reading. -/
theorem mapM_segment_pair_two_tokens :
    ∀ (l : List (List Char)), (∀ a ∈ l, (pySplitSpace a).length = 2) →
      l.mapM segment_pair = .ok (l.map claim_segment_pair) := by
  intro l
  induction l with
  | nil => intro _; rfl
  | cons a l ih =>
      intro h
      have ha := h a (List.mem_cons_self a l)
      have hl := fun b hb => h b (List.mem_cons_of_mem a hb)
      cases m : pySplitSpace a with
      | nil => rw [m] at ha; simp at ha
      | cons k t =>
          cases t with
          | nil => rw [m] at ha; simp at ha
          | cons v rest =>
              have hrest : rest = [] := by
                rw [m] at ha
                simp only [List.length_cons] at ha
                exact List.length_eq_zero.mp (by omega)
              subst hrest
              have hsp : segment_pair a = .ok (String.mk k, String.mk v) := by
                unfold segment_pair
                rw [m]
              rw [List.mapM_cons, hsp, ih hl]
              simp [claim_segment_pair, m, joinSpace]
              rfl

/-- Claim C8 (amended): the SSH-option parser splits on the `-o` marker,
strips quote characters, and splits each segment on spaces taking the
first token as the option name and the *second token only* as the option
value; this coincides with the claimed first-space reading exactly when
each segment has exactly two space-delimited tokens (values containing
further spaces are truncated, see the counterexample). -/
theorem c8_second_token_refinement (ssh_args : String)
    (h : ∀ a ∈ clean_ssh_segments ssh_args, (pySplitSpace a).length = 2) :
    parse_ssh_opt_pairs ssh_args = .ok (spec_claimed_ssh_pairs ssh_args) :=
  mapM_segment_pair_two_tokens (clean_ssh_segments ssh_args) h

/-- Witness for the amended C8 on the spec's own round-trip example. -/
theorem c8_second_token_refinement_witness :
    parse_ssh_opt_pairs "-o 'Port 2222' -o 'IdentityFile /x/key'"
      = .ok (spec_claimed_ssh_pairs "-o 'Port 2222' -o 'IdentityFile /x/key'") :=
  c8_second_token_refinement "-o 'Port 2222' -o 'IdentityFile /x/key'" (by decide)

/-- Counterexample to C9 as stated: the error raised for a malformed
cluster document is the builtin `ValueError("JSON cluster definition
invalid", cause)`, not the subsystem's distinguished domain error kind
(`DucktapeError`, which the mark framework raises for non-iterable matrix
values, last two conjuncts). -/
theorem c9_config_error_kind_counterexample :
    JsonCluster.build malformed_cluster_doc
      = .error (.valueErrorWrapping "JSON cluster definition invalid" (.keyError "nodes"))
    ∧ PyError.isDucktapeError
        (.valueErrorWrapping "JSON cluster definition invalid" (.keyError "nodes")) = false
    ∧ Matrix_init_check [("x", .jnum 5)]
      = .error (.ducktapeError
          "Expected all values in @matrix decorator to be iterable: 'int' object is not iterable")
    ∧ PyError.isDucktapeError
        (.ducktapeError
          "Expected all values in @matrix decorator to be iterable: 'int' object is not iterable")
      = true :=
  ⟨rfl, rfl, rfl, rfl⟩

/-- Claim C9 (amended): constructing a `JsonCluster` from any document on
which the node-construction block fails surfaces a single builtin
`ValueError` wrapping the underlying cause. -/
theorem c9_wraps_cause (doc : JVal) (e : PyError)
    (h : json_cluster_nodes doc = .error e) :
    JsonCluster.build doc
      = .error (.valueErrorWrapping "JSON cluster definition invalid" e) := by
  unfold JsonCluster.build
  rw [h]

/-- Witness for the amended C9: a node descriptor missing its required
`hostname` key. -/
theorem c9_wraps_cause_witness :
    JsonCluster.build (.jobj [("nodes", .jarr [.jobj []])])
      = .error (.valueErrorWrapping "JSON cluster definition invalid" (.keyError "hostname")) :=
  c9_wraps_cause (.jobj [("nodes", .jarr [.jobj []])]) (.keyError "hostname") rfl

end Ducktape
